import Mathlib

/-!
Shallow embedding of `pygelbooru/gelbooru.py`: the Gelbooru API client.

Python values parsed from XML by `xmltodict` are modelled by `XVal`; network
traffic is modelled by a `NetState` holding the queue of pending HTTP
responses and a log of the endpoints requested so far.  Fallible Python code
is modelled in `Except PyErr`.
-/

namespace PyGelbooru

/-- A Python value as produced by `xmltodict.parse`: a string leaf, a
mapping (`OrderedDict`), a list, or `None` (for empty XML elements). -/
inductive XVal : Type where
  | s (v : String)
  | m (entries : List (String × XVal))
  | l (items : List XVal)
  | null

/-- A parsed XML document: the top-level mapping returned by `xmltodict.parse`. -/
abbrev XMap := List (String × XVal)

/-- Python dict lookup `d.get(k)` (first binding wins, as in a dict). -/
def XMap.get (m : XMap) (k : String) : Option XVal :=
  match m with
  | [] => none
  | (k', v) :: rest => if k' = k then some v else XMap.get rest k

/-- Python `k in d` for a dict. -/
def XMap.hasKey (m : XMap) (k : String) : Bool :=
  (XMap.get m k).isSome

/-- Python exceptions that the embedded code can raise. -/
inductive PyErr : Type where
  | gelbooru (msg : String)   -- GelbooruException
  | notFound (msg : String)   -- GelbooruNotFoundException
  | keyError (k : String)     -- KeyError from a dict subscript
  | typeError                 -- TypeError (e.g. subscripting / int() on None)
  | attrError                 -- AttributeError (e.g. `.get` on a non-dict)
  | valueError                -- ValueError (e.g. int() on a non-numeric string)
  | indexError                -- IndexError (e.g. `[][0]`)
  | expat                     -- xml.parsers.expat.ExpatError
  | noResponse                -- oracle exhaustion: no pending HTTP response
deriving DecidableEq

/-- Python dict subscript `d[k]`: `KeyError` when the key is absent. -/
def XMap.getItem (m : XMap) (k : String) : Except PyErr XVal :=
  match XMap.get m k with
  | some v => .ok v
  | none => .error (.keyError k)

/-- Python subscript `x[k]` with a string key on an arbitrary value:
dict lookup on a mapping, `TypeError` otherwise. -/
def XVal.getItem : XVal → String → Except PyErr XVal
  | .m e, k => XMap.getItem e k
  | _, _ => .error .typeError

/-- Does this value equal (`==`) the given Python string? -/
def XVal.eqStr : XVal → String → Bool
  | .s v, k => v = k
  | _, _ => false

/-- Does `needle` occur at the head of `hay`? -/
def startsWithL (needle hay : List Char) : Bool :=
  match needle, hay with
  | [], _ => true
  | _ :: _, [] => false
  | a :: as, b :: bs => a == b && startsWithL as bs

/-- Does `needle` occur anywhere inside `hay` (Python `sub in str`)? -/
def containsSubL (needle hay : List Char) : Bool :=
  match hay with
  | [] => startsWithL needle []
  | _ :: rest => startsWithL needle hay || containsSubL needle rest

/-- Python `k in x` for a string key `k`: key test on mappings, membership on
lists, substring test on strings, `TypeError` on `None`. -/
def pyIn (k : String) : XVal → Except PyErr Bool
  | .m e => .ok (XMap.hasKey e k)
  | .l items => .ok (items.any (fun v => v.eqStr k))
  | .s v => .ok (containsSubL k.data v.data)
  | .null => .error .typeError

/-- Python `.get(...)` access on an arbitrary value: only mappings support it
(`AttributeError` otherwise); used when a parsed element is fed to a record
constructor. -/
def asXMap : XVal → Except PyErr XMap
  | .m e => .ok e
  | _ => .error .attrError

/-- Python truthiness of an `XVal`. -/
def XVal.truthy : XVal → Bool
  | .s v => v ≠ ""
  | .m e => ¬e.isEmpty
  | .l items => ¬items.isEmpty
  | .null => false

/-- Python truthiness of an optional value (`None` is falsy). -/
def pyTruthy : Option XVal → Bool
  | none => false
  | some v => v.truthy

/-- Python `x or None`. -/
def pyOrNone (v : Option XVal) : Option XVal :=
  if pyTruthy v then v else none

/-! ### Python string operations (modelling `str` methods over ASCII text) -/

/-- Characters treated as whitespace by Python's `str.strip()`. -/
def pyWhitespace (c : Char) : Bool :=
  c = ' ' ∨ c = '\t' ∨ c = '\n' ∨ c = '\r' ∨ c = '\x0b' ∨ c = '\x0c'

/-- `str.strip()` on the character list. -/
def stripL (l : List Char) : List Char :=
  ((l.dropWhile pyWhitespace).reverse.dropWhile pyWhitespace).reverse

/-- `str.lstrip('-')` on the character list. -/
def lstripDashL (l : List Char) : List Char :=
  l.dropWhile (fun c => c = '-')

/-- `str.lower()` on one character (ASCII model). -/
def lowerChar (c : Char) : Char :=
  if 'A' ≤ c ∧ c ≤ 'Z' then Char.ofNat (c.toNat + 32) else c

/-- `str.lower()` on the character list. -/
def lowerL (l : List Char) : List Char :=
  l.map lowerChar

/-- `str.replace(' ', '_')` on the character list. -/
def underscoreL (l : List Char) : List Char :=
  l.map (fun c => if c = ' ' then '_' else c)

/-- `s.strip()`. -/
def pyStrip (s : String) : String := ⟨stripL s.data⟩

/-- `s.lower()`. -/
def pyLower (s : String) : String := ⟨lowerL s.data⟩

/-- `s.replace(' ', '_')`. -/
def pyUnderscore (s : String) : String := ⟨underscoreL s.data⟩

/-- `s.lstrip('-')`. -/
def pyLstripDash (s : String) : String := ⟨lstripDashL s.data⟩

/-- `tag.strip().lower().replace(' ', '_')`: the normalization applied to one
inclusion tag (also used for tag names in `tag_list`). -/
def formatTag (t : String) : String :=
  pyUnderscore (pyLower (pyStrip t))

/-- `'-' + tag.strip().lstrip('-').lower().replace(' ', '_')`: the
normalization applied to one exclusion tag. -/
def formatExclude (t : String) : String :=
  "-" ++ pyUnderscore (pyLower (pyLstripDash (pyStrip t)))

/-- One splitting group step for the `str.split(' ')` model. -/
def splitOnCharL (sep : Char) : List Char → List (List Char)
  | [] => [[]]
  | c :: rest =>
    match splitOnCharL sep rest with
    | [] => [[]]
    | grp :: grps => if c = sep then [] :: grp :: grps else (c :: grp) :: grps

/-- Model of Python `s.split(' ')`: split at every single space, keeping
empty pieces (`''.split(' ') == ['']`). -/
def pySplitSpace (s : String) : List String :=
  (splitOnCharL ' ' s.data).map (fun l => ⟨l⟩)

/-- `Gelbooru._format_tags` (gelbooru.py lines 354-368): formatted inclusion
tags followed by formatted exclusion tags; a falsy (empty) argument list
contributes nothing. -/
def Gelbooru._format_tags (tags exclude_tags : List String) : List String :=
  (if tags.isEmpty then [] else tags.map formatTag) ++
    (if exclude_tags.isEmpty then [] else exclude_tags.map formatExclude)

/-! ### Python `int()` and `str()` -/

/-- Digit-string parsing for the `int()` model: at least one digit, all
digits. -/
def parseDigits (l : List Char) : Option Nat :=
  if l = [] then none
  else if l.all (fun c => '0' ≤ c ∧ c ≤ '9') then
    some (l.foldl (fun acc c => acc * 10 + (c.toNat - 48)) 0)
  else none

/-- Model of Python `int(s)` parsing on the character list: an optional sign
followed by digits. -/
def pyParseInt : List Char → Option Int
  | '-' :: rest => (parseDigits rest).map (fun n => -(n : Int))
  | '+' :: rest => (parseDigits rest).map (fun n => (n : Int))
  | l => (parseDigits l).map (fun n => (n : Int))

/-- Python `int(s)` on a string: surrounding whitespace is ignored,
non-numeric text raises `ValueError`. -/
def pyIntOfString (v : String) : Except PyErr Int :=
  match pyParseInt (stripL v.data) with
  | some n => .ok n
  | none => .error .valueError

/-- Python `int(x)` on a parsed XML value: only string leaves convert;
mappings, lists and `None` raise `TypeError`. -/
def pyInt : XVal → Except PyErr Int
  | .s v => pyIntOfString v
  | _ => .error .typeError

/-- Python `int(x)` where `x` may be `None` (`payload.get(...)`). -/
def pyIntOpt : Option XVal → Except PyErr Int
  | some v => pyInt v
  | none => .error .typeError

mutual
/-- Model of Python `str(x)` on a parsed XML value (containers rendered in a
`repr`-like form; API string fields are always string leaves). -/
def XVal.pyStr : XVal → String
  | .s v => v
  | .null => "None"
  | .m e => "OrderedDict([" ++ XVal.pyStrEntries e ++ "])"
  | .l items => "[" ++ XVal.pyStrList items ++ "]"

/-- Rendering of mapping entries for `XVal.pyStr`. -/
def XVal.pyStrEntries : List (String × XVal) → String
  | [] => ""
  | (k, v) :: rest => "(" ++ k ++ ", " ++ XVal.pyStr v ++ "), " ++ XVal.pyStrEntries rest

/-- Rendering of list items for `XVal.pyStr`. -/
def XVal.pyStrList : List XVal → String
  | [] => ""
  | v :: rest => XVal.pyStr v ++ ", " ++ XVal.pyStrList rest
end

/-- Python `str(x)` where `x` may be `None`. -/
def pyStrOpt : Option XVal → String
  | none => "None"
  | some v => v.pyStr

/-! ### Models of the stdlib URL helpers used by `GelbooruImage.__init__` -/

/-- The characters after the first occurrence of `pat`, when it occurs. -/
def dropAfterSub (pat : List Char) : List Char → Option (List Char)
  | [] => none
  | c :: rest =>
    if startsWithL pat (c :: rest) then some ((c :: rest).drop pat.length)
    else dropAfterSub pat rest

/-- Model of `urllib.parse.urlparse(u).path` for the http(s)-style URLs the
API returns: strips the fragment, the query, and the `scheme://netloc`
portion, leaving the path. -/
def urlparsePath (u : String) : String :=
  let noFrag := u.data.takeWhile (fun c => c ≠ '#')
  let noQuery := noFrag.takeWhile (fun c => c ≠ '?')
  match dropAfterSub [':', '/', '/'] noQuery with
  | none => ⟨noQuery⟩
  | some hostPath => ⟨hostPath.dropWhile (fun c => c ≠ '/')⟩

/-- Model of `os.path.basename`: the component after the last `/`. -/
def osBasename (p : String) : String :=
  ⟨(p.data.reverse.takeWhile (fun c => c ≠ '/')).reverse⟩

/-- `os.path.basename(urlparse(file_url).path)` where `file_url` is the raw
`payload.get('file_url')`: `urlparse` rejects `None` and non-string values. -/
def filenameOf : Option XVal → Except PyErr String
  | some (.s u) => .ok (osBasename (urlparsePath u))
  | some _ => .error .attrError
  | none => .error .typeError

/-! ### HTTP transport model -/

/-- A response body: XML that parses to a mapping, or unparseable bytes. -/
inductive Body : Type where
  | xml (payload : XMap)
  | malformed (raw : String)

/-- Rendering of a body into text, as f-string interpolation would. -/
def Body.render : Body → String
  | .xml p => XVal.pyStr (.m p)
  | .malformed raw => raw

/-- One HTTP response held by the network oracle. -/
structure HttpResp : Type where
  status : Nat
  body : Body

/-- A query URL under construction (model of `furl`): its query arguments in
order. -/
structure Endpoint : Type where
  args : List (String × String)

/-- `endpoint.args[k] = v`: replace the binding if present, else append. -/
def setArg : List (String × String) → String → String → List (String × String)
  | [], k, v => [(k, v)]
  | (k', v') :: rest, k, v =>
    if k' = k then (k, v) :: rest else (k', v') :: setArg rest k v

/-- `endpoint.args[k] = v` on an endpoint. -/
def Endpoint.set (e : Endpoint) (k v : String) : Endpoint :=
  ⟨setArg e.args k v⟩

/-- Query-argument lookup on an endpoint. -/
def Endpoint.get (e : Endpoint) (k : String) : Option String :=
  (e.args.find? (fun a => a.1 = k)).map (fun a => a.2)

/-- The network oracle: responses still pending (consumed in request order)
and the log of endpoints requested so far.  The length of the log counts the
HTTP round trips performed. -/
structure NetState : Type where
  pending : List HttpResp
  log : List Endpoint

/-- The client: static credentials plus the oracle for `random.randint`
(`rand a b` models `randint(a, b)`, which yields a value in `[a, b]`). -/
structure Gelbooru : Type where
  api_key : Option String := none
  user_id : Option String := none
  rand : Int → Int → Int := fun a _ => a

/-- `Gelbooru._endpoint` (lines 339-352): fixed arguments plus credentials
when they are truthy. -/
def Gelbooru._endpoint (g : Gelbooru) (s : String) : Endpoint :=
  let e : Endpoint := ⟨[("page", "dapi"), ("s", s), ("q", "index")]⟩
  let e := match g.api_key with
    | some k => if k = "" then e else e.set "api_key" k
    | none => e
  match g.user_id with
  | some u => if u = "" then e else e.set "user_id" u
  | none => e

/-- The message of the `GelbooruException` raised on a non-success status
(line 375); it interpolates the raw response body. -/
def nonSuccessMsg (b : Body) : String :=
  "Gelbooru returned a non 200 status code: " ++ b.render

/-- `Gelbooru._request` (lines 370-377): issue the GET (consume the next
pending response, log the endpoint), then check the status code. -/
def Gelbooru._request (g : Gelbooru) (e : Endpoint) (st : NetState) :
    Except PyErr (Body × NetState) :=
  match st.pending with
  | [] => .error .noResponse
  | r :: rest =>
    let st' : NetState := ⟨rest, st.log ++ [e]⟩
    if r.status = 200 ∨ r.status = 201 then .ok (r.body, st')
    else .error (.gelbooru (nonSuccessMsg r.body))

/-- `xmltodict.parse`: succeeds on well-formed XML, raises `ExpatError`
otherwise. -/
def xmltodictParse : Body → Except PyErr XMap
  | .xml p => .ok p
  | .malformed _ => .error .expat

/-- Message of the `GelbooruException` raised on a parse failure
(lines 198 and 238). -/
def malformedMsg : String := "Gelbooru returned a malformed response"

/-- The `try: xmltodict.parse ... except ExpatError: raise GelbooruException`
block shared by `search_posts` (lines 235-238) and `random_post`
(lines 195-198). -/
def parseOrMalformed (b : Body) : Except PyErr XMap :=
  match xmltodictParse b with
  | .ok p => .ok p
  | .error .expat => .error (.gelbooru malformedMsg)
  | .error e => .error e

/-! ### Record types

`GelbooruImage` and `GelbooruComment` reference each other (an image caches
its comments, a comment backreferences its post), so they are encoded as a
mutual inductive over plain data parts. -/

/-- The immutable fields of a `GelbooruImage` (lines 28-46). -/
structure ImageData : Type where
  gelbooru : Gelbooru
  id : Int
  creator_id : Option XVal
  created_at : Option XVal
  file_url : Option XVal
  filename : String
  source : Option XVal
  hash : Option XVal
  height : Int
  width : Int
  rating : Option XVal
  has_sample : Option XVal
  has_comments : Option XVal
  has_notes : Option XVal
  tags : List String
  change : Option XVal
  directory : Option XVal

/-- The immutable fields of a `GelbooruComment` (lines 103-112). -/
structure CommentData : Type where
  gelbooru : Gelbooru
  id : Int
  post_id : Option XVal
  creator : Option XVal
  creator_id : Option XVal
  created_at : Option XVal
  body : Option XVal

mutual
/-- A Gelbooru image record together with its `_comments` cache. -/
inductive GelbooruImage : Type where
  | mk (data : ImageData) (comments : List GelbooruComment)

/-- A Gelbooru comment record together with its `_post` backreference. -/
inductive GelbooruComment : Type where
  | mk (data : CommentData) (post : Option GelbooruImage)
end

/-- Immutable part of an image. -/
def GelbooruImage.data : GelbooruImage → ImageData
  | .mk d _ => d

/-- The `_comments` cache of an image. -/
def GelbooruImage.comments : GelbooruImage → List GelbooruComment
  | .mk _ c => c

/-- `self._comments = cs` on an image. -/
def GelbooruImage.withComments : GelbooruImage → List GelbooruComment → GelbooruImage
  | .mk d _, cs => .mk d cs

/-- Immutable part of a comment. -/
def GelbooruComment.data : GelbooruComment → CommentData
  | .mk d _ => d

/-- The `_post` backreference of a comment. -/
def GelbooruComment.post : GelbooruComment → Option GelbooruImage
  | .mk _ p => p

/-- `self._post = p` on a comment. -/
def GelbooruComment.withPost : GelbooruComment → Option GelbooruImage → GelbooruComment
  | .mk d _, p => .mk d p

/-- `GelbooruImage.__init__` (lines 28-48), in source order; `int(...)` and
the filename derivation can raise.  The comment cache starts empty. -/
def GelbooruImage.fromPayload (g : Gelbooru) (payload : XMap) :
    Except PyErr GelbooruImage := do
  let id ← pyIntOpt (XMap.get payload "id")
  let creator_id := XMap.get payload "creator_id"
  let created_at := XMap.get payload "created_at"
  let file_url := XMap.get payload "file_url"
  let filename ← filenameOf file_url
  let source := pyOrNone (XMap.get payload "source")
  let hash := XMap.get payload "hash"
  let height ← pyIntOpt (XMap.get payload "height")
  let width ← pyIntOpt (XMap.get payload "width")
  let rating := XMap.get payload "rating"
  let has_sample := XMap.get payload "sample"
  let has_comments := XMap.get payload "has_comments"
  let has_notes := XMap.get payload "has_notes"
  let tags := pySplitSpace (pyStrOpt (XMap.get payload "tags"))
  let change := XMap.get payload "change"
  let directory := XMap.get payload "directory"
  .ok (.mk ⟨g, id, creator_id, created_at, file_url, filename, source, hash,
      height, width, rating, has_sample, has_comments, has_notes, tags,
      change, directory⟩ [])

/-- A Gelbooru tag record (lines 72-84). -/
structure GelbooruTag : Type where
  gelbooru : Gelbooru
  id : Int
  name : Option XVal
  count : Int
  ambiguous : Option XVal

/-- `GelbooruTag.__init__` (lines 78-84); `@count` defaults to 0 when
absent. -/
def GelbooruTag.fromPayload (g : Gelbooru) (payload : XMap) :
    Except PyErr GelbooruTag := do
  let id ← pyIntOpt (XMap.get payload "id")
  let name := XMap.get payload "name"
  let count ← match XMap.get payload "@count" with
    | none => Except.ok 0
    | some v => pyInt v
  let ambiguous := XMap.get payload "ambiguous"
  .ok ⟨g, id, name, count, ambiguous⟩

/-- `GelbooruComment.__init__` (lines 103-112); `post` is the pre-set
backreference (`None` unless fetched via an image). -/
def GelbooruComment.fromPayload (g : Gelbooru) (payload : XMap)
    (post : Option GelbooruImage) : Except PyErr GelbooruComment := do
  let id ← pyIntOpt (XMap.get payload "id")
  let post_id := XMap.get payload "post_id"
  let creator := XMap.get payload "creator"
  let creator_id := XMap.get payload "creator_id"
  let created_at := XMap.get payload "created_at"
  let body := XMap.get payload "body"
  .ok (.mk ⟨g, id, post_id, creator, creator_id, created_at, body⟩ post)

/-! ### Client operations

Each operation issues one `_request` and then runs pure response-processing
code; the processing of each response body is factored into a named `…Body`
function so that its normalization logic can be reasoned about directly. -/

/-- Result of `search_posts`: a list of images, or — when `limit == 1` —
the bare first image. -/
inductive PostsResult : Type where
  | images (items : List GelbooruImage)
  | single (image : GelbooruImage)

/-- Result of `tag_list`: a list of tags, or the bare tag when the API
returned a single one. -/
inductive TagsResult : Type where
  | tags (items : List GelbooruTag)
  | singleTag (tag : GelbooruTag)

/-- Result of `random_post`: `None`, or whatever `search_posts` returned. -/
inductive RandomResult : Type where
  | noPost
  | found (r : PostsResult)

/-- The `name` argument of `tag_list`: absent (`None`), a single string, or a
list of strings. -/
inductive NameArg : Type where
  | noName
  | one (n : String)
  | many (ns : List String)

/-- The `post` argument of `get_comments`: a post id or an image. -/
inductive PostArg : Type where
  | byId (pid : Int)
  | byImage (img : GelbooruImage)

/-- `int(post)` on a `get_comments` argument (`GelbooruImage.__int__` is the
image id, line 64-65). -/
def PostArg.pyIntOf : PostArg → Int
  | .byId n => n
  | .byImage img => img.data.id

/-- Response processing of `get_post` (lines 169-173): `NotFound` when the
outer key is absent, otherwise `payload['posts']['post']` fed to the image
constructor. -/
def getPostBody (g : Gelbooru) (post_id : String) (b : Body) :
    Except PyErr GelbooruImage := do
  let payload ← xmltodictParse b
  if ¬XMap.hasKey payload "posts" then
    .error (.notFound ("Could not find a post with the ID " ++ post_id))
  else do
    let postsVal ← XMap.getItem payload "posts"
    let postVal ← postsVal.getItem "post"
    let pm ← asXMap postVal
    GelbooruImage.fromPayload g pm

/-- `Gelbooru.get_post` (lines 156-173). -/
def Gelbooru.get_post (g : Gelbooru) (post_id : String) (st : NetState) :
    Except PyErr (GelbooruImage × NetState) :=
  let endpoint := (g._endpoint "post").set "id" post_id
  match g._request endpoint st with
  | .error e => .error e
  | .ok (body, st') =>
    match getPostBody g post_id body with
    | .error e => .error e
    | .ok img => .ok (img, st')

/-- The single-vs-list normalization of `search_posts` (lines 245-247): a
list is mapped elementwise, anything else is wrapped alone. -/
def normalizePosts (g : Gelbooru) (postVal : XVal) :
    Except PyErr (List GelbooruImage) :=
  match postVal with
  | .l items => items.mapM (fun p => do GelbooruImage.fromPayload g (← asXMap p))
  | _ => do
    let pm ← asXMap postVal
    let img ← GelbooruImage.fromPayload g pm
    .ok [img]

/-- Response processing of `search_posts` (lines 235-253): parse (raising the
malformed-response error on `ExpatError`), return an empty list when the
outer `posts` or inner `post` key is missing, normalize, and unwrap the first
element when `limit == 1`. -/
def postsBody (g : Gelbooru) (limit : Int) (b : Body) :
    Except PyErr PostsResult := do
  let payload ← parseOrMalformed b
  if ¬XMap.hasKey payload "posts" then .ok (.images [])
  else do
    let postsVal ← XMap.getItem payload "posts"
    let hasPost ← pyIn "post" postsVal
    if ¬hasPost then .ok (.images [])
    else do
      let postVal ← postsVal.getItem "post"
      let result ← normalizePosts g postVal
      if limit = 1 then
        match result with
        | [] => .error .indexError
        | i :: _ => .ok (.single i)
      else .ok (.images result)

/-- The endpoint built by `search_posts` (lines 224-231). -/
def searchEndpoint (g : Gelbooru) (tags exclude_tags : List String)
    (limit page : Int) : Endpoint :=
  let endpoint := ((g._endpoint "post").set "limit" (toString limit)).set
    "pid" (toString page)
  let ftags := Gelbooru._format_tags tags exclude_tags
  if ftags.isEmpty then endpoint
  else endpoint.set "tags" (String.intercalate " " ftags)

/-- `Gelbooru.search_posts` (lines 210-253). -/
def Gelbooru.search_posts (g : Gelbooru) (tags exclude_tags : List String)
    (limit page : Int) (st : NetState) : Except PyErr (PostsResult × NetState) :=
  match g._request (searchEndpoint g tags exclude_tags limit page) st with
  | .error e => .error e
  | .ok (body, st') =>
    match postsBody g limit body with
    | .error e => .error e
    | .ok r => .ok (r, st')

/-- The count extraction of `random_post` (lines 195-201): parse (raising the
malformed-response error on `ExpatError`), then
`int(payload['posts']['@count'])`. -/
def randomCount (b : Body) : Except PyErr Int := do
  let payload ← parseOrMalformed b
  let postsVal ← XMap.getItem payload "posts"
  let countVal ← postsVal.getItem "@count"
  pyInt countVal

/-- The endpoint built by `random_post` (lines 185-191). -/
def randomEndpoint (g : Gelbooru) (tags exclude_tags : List String) : Endpoint :=
  let endpoint := (g._endpoint "post").set "limit" (toString (1 : Int))
  let ftags := Gelbooru._format_tags tags exclude_tags
  if ftags.isEmpty then endpoint
  else endpoint.set "tags" (String.intercalate " " ftags)

/-- `Gelbooru.random_post` (lines 175-208): probe the result count with a
`limit=1` query; `None` when it is zero, otherwise delegate to
`search_posts` with `limit=1` at offset `randint(0, min(count, 20000))`.
Note the probe rebinds `tags` to the formatted list before delegating. -/
def Gelbooru.random_post (g : Gelbooru) (tags exclude_tags : List String)
    (st : NetState) : Except PyErr (RandomResult × NetState) :=
  let ftags := Gelbooru._format_tags tags exclude_tags
  match g._request (randomEndpoint g tags exclude_tags) st with
  | .error e => .error e
  | .ok (body, st') =>
    match randomCount body with
    | .error e => .error e
    | .ok count =>
      if count = 0 then .ok (.noPost, st')
      else
        let offset := g.rand 0 (min count 20000)
        match g.search_posts ftags exclude_tags 1 offset st' with
        | .error e => .error e
        | .ok (r, st'') => .ok (.found r, st'')

/-- Response processing of `tag_list` (lines 289-296): parse (`ExpatError`
uncaught here), empty list when the outer `tags` key is absent, then subscript
`payload['tags']['tag']` and normalize — a single tag is returned bare. -/
def tagListBody (g : Gelbooru) (b : Body) : Except PyErr TagsResult := do
  let payload ← xmltodictParse b
  if ¬XMap.hasKey payload "tags" then .ok (.tags [])
  else do
    let tagsVal ← XMap.getItem payload "tags"
    let tagVal ← tagsVal.getItem "tag"
    match tagVal with
    | .l items => do
      let ts ← items.mapM (fun t => do GelbooruTag.fromPayload g (← asXMap t))
      .ok (.tags ts)
    | _ => do
      let tm ← asXMap tagVal
      let t ← GelbooruTag.fromPayload g tm
      .ok (.singleTag t)

/-- The endpoint built by `tag_list` (lines 271-285). -/
def tagListEndpoint (g : Gelbooru) (name : NameArg)
    (name_pattern : Option String) (limit : Int) (sort_by sort_order : String) :
    Endpoint :=
  let endpoint := (g._endpoint "tag").set "limit" (toString limit)
  let byPattern := fun (e : Endpoint) =>
    match name_pattern with
    | some p => if p = "" then e else e.set "name_pattern" (formatTag p)
    | none => e
  let endpoint := match name with
    | .many ns =>
      if ns.isEmpty then byPattern endpoint
      else endpoint.set "names" (String.intercalate " " (ns.map formatTag))
    | .one n =>
      if n = "" then byPattern endpoint else endpoint.set "name" (formatTag n)
    | .noName => byPattern endpoint
  (endpoint.set "orderby" sort_by).set "order" sort_order

/-- `Gelbooru.tag_list` (lines 255-296). -/
def Gelbooru.tag_list (g : Gelbooru) (name : NameArg)
    (name_pattern : Option String) (limit : Int) (sort_by sort_order : String)
    (st : NetState) : Except PyErr (TagsResult × NetState) :=
  match g._request (tagListEndpoint g name name_pattern limit sort_by sort_order) st with
  | .error e => .error e
  | .ok (body, st') =>
    match tagListBody g body with
    | .error e => .error e
    | .ok r => .ok (r, st')

/-- Response processing of `get_comments` (lines 311-319): parse (`ExpatError`
uncaught), subscript `payload['comments']` directly (`KeyError` when the outer
key is absent), empty list when the inner `comment` key is missing, then
normalize with the optional image backreference pre-set. -/
def commentsBody (g : Gelbooru) (postOpt : Option GelbooruImage) (b : Body) :
    Except PyErr (List GelbooruComment) := do
  let payload ← xmltodictParse b
  let commentsVal ← XMap.getItem payload "comments"
  let hasComment ← pyIn "comment" commentsVal
  if ¬hasComment then .ok []
  else do
    let commentVal ← commentsVal.getItem "comment"
    match commentVal with
    | .l items =>
      items.mapM (fun c => do GelbooruComment.fromPayload g (← asXMap c) postOpt)
    | _ => do
      let cm ← asXMap commentVal
      let c ← GelbooruComment.fromPayload g cm postOpt
      .ok [c]

/-- The image backreference passed to the comment constructor (line 316):
the argument itself when it is an image, `None` when it is a bare id. -/
def PostArg.asImage : PostArg → Option GelbooruImage
  | .byImage img => some img
  | .byId _ => none

/-- `Gelbooru.get_comments` (lines 298-319). -/
def Gelbooru.get_comments (g : Gelbooru) (post : PostArg) (st : NetState) :
    Except PyErr (List GelbooruComment × NetState) :=
  match g._request ((g._endpoint "comment").set "post_id" (toString post.pyIntOf)) st with
  | .error e => .error e
  | .ok (body, st') =>
    match commentsBody g post.asImage body with
    | .error e => .error e
    | .ok cs => .ok (cs, st')

/-- Python `for p in x`: a list yields its items, a mapping its keys, a
string its characters; `None` is not iterable. -/
def pyIterate : XVal → Except PyErr (List XVal)
  | .l items => .ok items
  | .m entries => .ok (entries.map (fun e => XVal.s e.1))
  | .s v => .ok (v.data.map (fun c => XVal.s (String.mk [c])))
  | .null => .error .typeError

/-- Response processing of `is_deleted` (lines 334-337): collect the `@md5`
of each element of `payload['posts']['post']` and test membership. -/
def isDeletedBody (image_md5 : String) (b : Body) : Except PyErr Bool := do
  let payload ← xmltodictParse b
  let postsVal ← XMap.getItem payload "posts"
  let postVal ← postsVal.getItem "post"
  let elems ← pyIterate postVal
  let md5s ← elems.mapM (fun p => p.getItem "@md5")
  .ok (md5s.any (fun v => v.eqStr image_md5))

/-- `Gelbooru.is_deleted` (lines 321-337). -/
def Gelbooru.is_deleted (g : Gelbooru) (image_md5 : String) (st : NetState) :
    Except PyErr (Bool × NetState) :=
  let endpoint := (g._endpoint "post").set "deleted" "show"
  match g._request endpoint st with
  | .error e => .error e
  | .ok (body, st') =>
    match isDeletedBody image_md5 body with
    | .error e => .error e
    | .ok r => .ok (r, st')

/-! ### Lazy record accessors -/

/-- `GelbooruImage.get_comments` (lines 50-59): nothing when `has_comments`
is falsy; the cache when it is truthy (non-empty); otherwise fetch via the
client and store the result.  Returns the comment list together with the
(possibly updated) image. -/
def GelbooruImage.get_comments (img : GelbooruImage) (st : NetState) :
    Except PyErr ((List GelbooruComment × GelbooruImage) × NetState) :=
  if ¬pyTruthy img.data.has_comments then .ok (([], img), st)
  else if ¬img.comments.isEmpty then .ok ((img.comments, img), st)
  else
    match img.data.gelbooru.get_comments (.byImage img) st with
    | .error e => .error e
    | .ok (cs, st') => .ok ((cs, img.withComments cs), st')

/-- `GelbooruComment.get_post` (lines 114-119): the cached backreference when
set (an image object is always truthy), otherwise fetch the post by
`self.post_id` via the client and store it.  Returns the post together with
the (possibly updated) comment. -/
def GelbooruComment.get_post (c : GelbooruComment) (st : NetState) :
    Except PyErr ((GelbooruImage × GelbooruComment) × NetState) :=
  match c.post with
  | some p => .ok ((p, c), st)
  | none =>
    match c.data.gelbooru.get_post (pyStrOpt c.data.post_id) st with
    | .error e => .error e
    | .ok (p, st') => .ok ((p, c.withPost (some p)), st')

/-! ### Concrete fixtures used by witnesses and counterexamples -/

/-- A credential-less client whose `randint` oracle returns the lower bound. -/
def g0 : Gelbooru := ⟨none, none, fun a _ => a⟩

/-- A well-formed post element, as parsed from the XML. -/
def postPayload0 : XMap :=
  [("id", .s "42"), ("file_url", .s "https://x/a/b.jpg"), ("height", .s "10"),
   ("width", .s "20"), ("has_comments", .s "true"), ("tags", .s "a b")]

/-- The image `GelbooruImage.__init__` builds from `postPayload0`. -/
def img0 : GelbooruImage :=
  .mk ⟨g0, 42, none, none, some (.s "https://x/a/b.jpg"), "b.jpg", none, none,
    10, 20, none, none, some (.s "true"), none, ["a", "b"], none, none⟩ []

/-- A well-formed tag element, as parsed from the XML. -/
def tagPayload0 : XMap :=
  [("id", .s "7"), ("name", .s "sky"), ("@count", .s "3")]

/-- The tag `GelbooruTag.__init__` builds from `tagPayload0`. -/
def tag0 : GelbooruTag := ⟨g0, 7, some (.s "sky"), 3, none⟩

/-- A well-formed comment element, as parsed from the XML. -/
def commentPayload0 : XMap :=
  [("id", .s "5"), ("post_id", .s "42"), ("body", .s "hi")]

/-- The comment `GelbooruComment.__init__` builds from `commentPayload0`
with no backreference. -/
def comment0 : GelbooruComment :=
  .mk ⟨g0, 5, some (.s "42"), none, none, none, some (.s "hi")⟩ none

/-! ## Theorems

### Character-level facts about the tag formatting -/

theorem char_le_iff_toNat {a b : Char} : a ≤ b ↔ a.toNat ≤ b.toNat := by
  rw [Char.le_def, UInt32.le_def, BitVec.le_def]; rfl

theorem charToNat_ofNat {n : Nat} (h : n < 0xd800) : (Char.ofNat n).toNat = n := by
  rw [Char.ofNat, dif_pos (Or.inl h)]
  rfl

theorem lowerChar_toNat (c : Char) (h : 'A' ≤ c ∧ c ≤ 'Z') :
    (lowerChar c).toNat = c.toNat + 32 := by
  rw [lowerChar, if_pos h]
  have h1 : c.toNat ≤ 90 := by
    have := char_le_iff_toNat.mp h.2
    simpa using this
  exact charToNat_ofNat (by omega)

theorem lowerChar_not_upper (c : Char) : ¬('A' ≤ lowerChar c ∧ lowerChar c ≤ 'Z') := by
  by_cases h : 'A' ≤ c ∧ c ≤ 'Z'
  · have hn := lowerChar_toNat c h
    have h2 : (65 : Nat) ≤ c.toNat := by
      have := char_le_iff_toNat.mp h.1
      simpa using this
    rintro ⟨_, hle⟩
    have h3 := char_le_iff_toNat.mp hle
    rw [hn] at h3
    have h4 : ('Z').toNat = 90 := rfl
    omega
  · rw [lowerChar, if_neg h]
    exact h

theorem lowerChar_ne_dash {c : Char} (h : c ≠ '-') : lowerChar c ≠ '-' := by
  by_cases hu : 'A' ≤ c ∧ c ≤ 'Z'
  · intro he
    have hn := lowerChar_toNat c hu
    rw [he] at hn
    have h2 : (65 : Nat) ≤ c.toNat := by
      have := char_le_iff_toNat.mp hu.1
      simpa using this
    have h4 : ('-').toNat = 45 := rfl
    omega
  · rw [lowerChar, if_neg hu]; exact h

theorem head_dropWhile_false {p : Char → Bool} {l : List Char} {c : Char}
    (h : (l.dropWhile p).head? = some c) : p c = false := by
  induction l with
  | nil => simp [List.dropWhile] at h
  | cons a as ih =>
    rw [List.dropWhile] at h
    cases hp : p a with
    | true => rw [hp] at h; exact ih h
    | false =>
      rw [hp] at h
      simp at h
      subst h
      exact hp

theorem out_char_ok {c : Char} {l : List Char} (h : c ∈ underscoreL (lowerL l)) :
    c ≠ ' ' ∧ ¬('A' ≤ c ∧ c ≤ 'Z') := by
  rw [underscoreL, lowerL] at h
  simp only [List.mem_map] at h
  obtain ⟨c0, ⟨a, _, rfl⟩, hc⟩ := h
  by_cases hsp : lowerChar a = ' '
  · rw [if_pos hsp] at hc
    subst hc
    exact ⟨by decide, by decide⟩
  · rw [if_neg hsp] at hc
    subst hc
    exact ⟨hsp, lowerChar_not_upper a⟩

theorem formatTag_data (t : String) :
    (formatTag t).data = underscoreL (lowerL (stripL t.data)) := rfl

theorem formatExclude_data (t : String) :
    (formatExclude t).data = '-' :: underscoreL (lowerL (lstripDashL (stripL t.data))) := rfl

/-- C4: every output of the tag-formatting step is lower-case and free of
space characters; each formatted exclusion tag starts with exactly one `-`
(its remainder never starts with another `-`, however many leading dashes the
input had); and the output is the formatted inclusion tags in order followed
by the formatted exclusion tags in order. -/
theorem format_tags_correct (tags exclude_tags : List String) :
    Gelbooru._format_tags tags exclude_tags
      = tags.map formatTag ++ exclude_tags.map formatExclude
    ∧ (∀ t ∈ Gelbooru._format_tags tags exclude_tags, ∀ c ∈ t.data,
        c ≠ ' ' ∧ ¬('A' ≤ c ∧ c ≤ 'Z'))
    ∧ (∀ t ∈ exclude_tags, ∃ rest : List Char,
        (formatExclude t).data = '-' :: rest ∧ rest.head? ≠ some '-') := by
  refine ⟨?_, ?_, ?_⟩
  · rw [Gelbooru._format_tags]
    rcases tags with _ | ⟨a, as⟩ <;> rcases exclude_tags with _ | ⟨b, bs⟩ <;> simp
  · intro t ht c hc
    rw [Gelbooru._format_tags] at ht
    have ht' : t ∈ tags.map formatTag ++ exclude_tags.map formatExclude := by
      rcases List.mem_append.mp ht with h | h
      · refine List.mem_append.mpr (Or.inl ?_)
        by_cases he : tags.isEmpty
        · rw [if_pos he] at h; simp at h
        · rwa [if_neg he] at h
      · refine List.mem_append.mpr (Or.inr ?_)
        by_cases he : exclude_tags.isEmpty
        · rw [if_pos he] at h; simp at h
        · rwa [if_neg he] at h
    rcases List.mem_append.mp ht' with h | h
    · obtain ⟨s, _, rfl⟩ := List.mem_map.mp h
      rw [formatTag_data] at hc
      exact out_char_ok hc
    · obtain ⟨s, _, rfl⟩ := List.mem_map.mp h
      rw [formatExclude_data] at hc
      rcases List.mem_cons.mp hc with rfl | hc'
      · exact ⟨by decide, by decide⟩
      · exact out_char_ok hc'
  · intro t _
    refine ⟨underscoreL (lowerL (lstripDashL (stripL t.data))), formatExclude_data t, ?_⟩
    intro hh
    rw [underscoreL, lowerL, List.map_map, List.head?_map] at hh
    rcases ho : (lstripDashL (stripL t.data)).head? with _ | c0
    · rw [ho] at hh; exact Option.noConfusion hh
    · rw [ho] at hh
      rw [Option.map_some'] at hh
      have hc0 : c0 ≠ '-' := by
        have := head_dropWhile_false (p := fun c => c = '-') ho
        simpa using this
      have hin : (if lowerChar c0 = ' ' then '_' else lowerChar c0) = '-' := by
        injection hh
      by_cases hsp : lowerChar c0 = ' '
      · rw [if_pos hsp] at hin
        exact absurd hin (by decide)
      · rw [if_neg hsp] at hin
        exact lowerChar_ne_dash hc0 hin

/-- C4 witness: the formatter evaluated at the spec's example, with the
membership hypotheses of `format_tags_correct` discharged at it. -/
theorem format_tags_correct_witness :
    Gelbooru._format_tags ["Blue Sky"] ["-Red Eyes"] = ["blue_sky", "-red_eyes"]
    ∧ ('b' ≠ ' ' ∧ ¬('A' ≤ 'b' ∧ 'b' ≤ 'Z'))
    ∧ (∃ rest : List Char,
        (formatExclude "-Red Eyes").data = '-' :: rest ∧ rest.head? ≠ some '-') := by
  refine ⟨rfl, ?_, ?_⟩
  · exact (format_tags_correct ["Blue Sky"] ["-Red Eyes"]).2.1 "blue_sky"
      (by rw [(format_tags_correct ["Blue Sky"] ["-Red Eyes"]).1]; decide)
      'b' (by decide)
  · exact (format_tags_correct ["Blue Sky"] ["-Red Eyes"]).2.2 "-Red Eyes" (by decide)

/-! ### Transport behavior: run lemmas for the operations -/

theorem request_ok (g : Gelbooru) (e : Endpoint) (r : HttpResp)
    (rest : List HttpResp) (log : List Endpoint)
    (h : r.status = 200 ∨ r.status = 201) :
    g._request e ⟨r :: rest, log⟩ = .ok (r.body, ⟨rest, log ++ [e]⟩) := by
  rw [Gelbooru._request]
  simp only
  rw [if_pos h]

theorem request_fail (g : Gelbooru) (e : Endpoint) (r : HttpResp)
    (rest : List HttpResp) (log : List Endpoint)
    (h : r.status ≠ 200 ∧ r.status ≠ 201) :
    g._request e ⟨r :: rest, log⟩ = .error (.gelbooru (nonSuccessMsg r.body)) := by
  rw [Gelbooru._request]
  simp only
  rw [if_neg (by rintro (h1 | h2) <;> [exact h.1 h1; exact h.2 h2])]

theorem search_posts_run (g : Gelbooru) (tags exclude_tags : List String)
    (limit page : Int) (b : Body) (rest : List HttpResp) (log : List Endpoint) :
    g.search_posts tags exclude_tags limit page ⟨⟨200, b⟩ :: rest, log⟩
      = (postsBody g limit b).map
          (fun r => (r, (⟨rest, log ++ [searchEndpoint g tags exclude_tags limit page]⟩ : NetState))) := by
  rw [Gelbooru.search_posts, request_ok _ _ _ _ _ (Or.inl rfl)]
  cases hb : postsBody g limit b <;> simp [Except.map, hb]

theorem get_post_run (g : Gelbooru) (post_id : String) (b : Body)
    (rest : List HttpResp) (log : List Endpoint) :
    g.get_post post_id ⟨⟨200, b⟩ :: rest, log⟩
      = (getPostBody g post_id b).map
          (fun img => (img, (⟨rest, log ++ [(g._endpoint "post").set "id" post_id]⟩ : NetState))) := by
  rw [Gelbooru.get_post, request_ok _ _ _ _ _ (Or.inl rfl)]
  cases hb : getPostBody g post_id b <;> simp [Except.map, hb]

theorem tag_list_run (g : Gelbooru) (name : NameArg) (name_pattern : Option String)
    (limit : Int) (sort_by sort_order : String) (b : Body)
    (rest : List HttpResp) (log : List Endpoint) :
    g.tag_list name name_pattern limit sort_by sort_order ⟨⟨200, b⟩ :: rest, log⟩
      = (tagListBody g b).map
          (fun r => (r, (⟨rest, log ++ [tagListEndpoint g name name_pattern limit sort_by sort_order]⟩ : NetState))) := by
  rw [Gelbooru.tag_list, request_ok _ _ _ _ _ (Or.inl rfl)]
  cases hb : tagListBody g b <;> simp [Except.map, hb]

theorem get_comments_run (g : Gelbooru) (post : PostArg) (b : Body)
    (rest : List HttpResp) (log : List Endpoint) :
    g.get_comments post ⟨⟨200, b⟩ :: rest, log⟩
      = (commentsBody g post.asImage b).map
          (fun cs => (cs, (⟨rest, log ++ [(g._endpoint "comment").set "post_id" (toString post.pyIntOf)]⟩ : NetState))) := by
  rw [Gelbooru.get_comments, request_ok _ _ _ _ _ (Or.inl rfl)]
  cases hb : commentsBody g post.asImage b <;> simp [Except.map, hb]

theorem is_deleted_run (g : Gelbooru) (image_md5 : String) (b : Body)
    (rest : List HttpResp) (log : List Endpoint) :
    g.is_deleted image_md5 ⟨⟨200, b⟩ :: rest, log⟩
      = (isDeletedBody image_md5 b).map
          (fun r => (r, (⟨rest, log ++ [(g._endpoint "post").set "deleted" "show"]⟩ : NetState))) := by
  rw [Gelbooru.is_deleted, request_ok _ _ _ _ _ (Or.inl rfl)]
  cases hb : isDeletedBody image_md5 b <;> simp [Except.map, hb]

/-- C9: a non-success HTTP status makes `_request` raise the transport error
before any parsing (whatever the body is, well-formed or not), the raised
error carries the rendered response body, every operation propagates that
error unchanged, and a success status hands the body over unchanged. -/
theorem transport_error_correct (g : Gelbooru) (r : HttpResp)
    (rest : List HttpResp) (log : List Endpoint)
    (post_id md5 : String) (tags exclude_tags : List String)
    (name : NameArg) (name_pattern : Option String)
    (limit page : Int) (sort_by sort_order : String) (post : PostArg)
    (h : r.status ≠ 200 ∧ r.status ≠ 201) :
    (∀ e, g._request e ⟨r :: rest, log⟩
        = .error (.gelbooru (nonSuccessMsg r.body)))
    ∧ (∃ pre, nonSuccessMsg r.body = pre ++ r.body.render)
    ∧ g.get_post post_id ⟨r :: rest, log⟩
        = .error (.gelbooru (nonSuccessMsg r.body))
    ∧ g.search_posts tags exclude_tags limit page ⟨r :: rest, log⟩
        = .error (.gelbooru (nonSuccessMsg r.body))
    ∧ g.random_post tags exclude_tags ⟨r :: rest, log⟩
        = .error (.gelbooru (nonSuccessMsg r.body))
    ∧ g.tag_list name name_pattern limit sort_by sort_order ⟨r :: rest, log⟩
        = .error (.gelbooru (nonSuccessMsg r.body))
    ∧ g.get_comments post ⟨r :: rest, log⟩
        = .error (.gelbooru (nonSuccessMsg r.body))
    ∧ g.is_deleted md5 ⟨r :: rest, log⟩
        = .error (.gelbooru (nonSuccessMsg r.body))
    ∧ (∀ e b rest' log', g._request e ⟨⟨200, b⟩ :: rest', log'⟩
        = .ok (b, ⟨rest', log' ++ [e]⟩)) := by
  refine ⟨fun e => request_fail g e r rest log h,
    ⟨"Gelbooru returned a non 200 status code: ", rfl⟩, ?_, ?_, ?_, ?_, ?_, ?_,
    fun e b rest' log' => request_ok g e ⟨200, b⟩ rest' log' (Or.inl rfl)⟩
  · rw [Gelbooru.get_post, request_fail g _ r rest log h]
  · rw [Gelbooru.search_posts, request_fail g _ r rest log h]
  · rw [Gelbooru.random_post, request_fail g _ r rest log h]
  · rw [Gelbooru.tag_list, request_fail g _ r rest log h]
  · rw [Gelbooru.get_comments, request_fail g _ r rest log h]
  · rw [Gelbooru.is_deleted, request_fail g _ r rest log h]

/-- C9 witness: a 404 with a malformed body raises the transport error (not
the parse error) from every operation, and a 200 returns the body. -/
theorem transport_error_correct_witness :
    Gelbooru._request ⟨none, none, fun a _ => a⟩ ⟨[]⟩
        ⟨[⟨404, .malformed "oops"⟩], []⟩
      = .error (.gelbooru (nonSuccessMsg (.malformed "oops")))
    ∧ Gelbooru.search_posts ⟨none, none, fun a _ => a⟩ [] [] 100 0
        ⟨[⟨404, .malformed "oops"⟩], []⟩
      = .error (.gelbooru (nonSuccessMsg (.malformed "oops"))) := by
  have h := transport_error_correct ⟨none, none, fun a _ => a⟩
    ⟨404, .malformed "oops"⟩ [] [] "1" "m" [] [] .noName none 100 0 "count" "DESC"
    (.byId 1) (by refine ⟨?_, ?_⟩ <;> decide)
  exact ⟨h.1 ⟨[]⟩, h.2.2.2.1⟩

/-! ### Characterizations of the response-processing functions -/

theorem bind_ok_eq {α β : Type} (a : α) (f : α → Except PyErr β) :
    (Except.ok a >>= f) = f a := rfl

theorem bind_error_eq {α β : Type} (e : PyErr) (f : α → Except PyErr β) :
    ((Except.error e : Except PyErr α) >>= f) = .error e := rfl

theorem parseOrMalformed_xml (payload : XMap) :
    parseOrMalformed (.xml payload) = .ok payload := rfl

theorem postsBody_no_outer (g : Gelbooru) (limit : Int) (payload : XMap)
    (h : XMap.hasKey payload "posts" = false) :
    postsBody g limit (.xml payload) = .ok (.images []) := by
  rw [postsBody]
  simp [parseOrMalformed_xml, bind_ok_eq, bind_error_eq, h]

theorem postsBody_no_inner (g : Gelbooru) (limit : Int) (payload : XMap)
    (pv : XVal) (h1 : XMap.get payload "posts" = some pv)
    (h2 : pyIn "post" pv = .ok false) :
    postsBody g limit (.xml payload) = .ok (.images []) := by
  rw [postsBody]
  simp [parseOrMalformed_xml, bind_ok_eq, bind_error_eq, XMap.hasKey, XMap.getItem, h1, h2]

theorem postsBody_results_many (g : Gelbooru) (limit : Int) (payload : XMap)
    (pv postVal : XVal) (is : List GelbooruImage)
    (hlimit : limit ≠ 1)
    (h1 : XMap.get payload "posts" = some pv)
    (h2 : pyIn "post" pv = .ok true)
    (h3 : pv.getItem "post" = .ok postVal)
    (h4 : normalizePosts g postVal = .ok is) :
    postsBody g limit (.xml payload) = .ok (.images is) := by
  rw [postsBody]
  simp [parseOrMalformed_xml, bind_ok_eq, XMap.hasKey, XMap.getItem,
    h1, h2, h3, h4, hlimit]

theorem postsBody_results_one (g : Gelbooru) (payload : XMap)
    (pv postVal : XVal) (i : GelbooruImage) (tl : List GelbooruImage)
    (h1 : XMap.get payload "posts" = some pv)
    (h2 : pyIn "post" pv = .ok true)
    (h3 : pv.getItem "post" = .ok postVal)
    (h4 : normalizePosts g postVal = .ok (i :: tl)) :
    postsBody g 1 (.xml payload) = .ok (.single i) := by
  rw [postsBody]
  simp [parseOrMalformed_xml, bind_ok_eq, XMap.hasKey, XMap.getItem,
    h1, h2, h3, h4]

theorem normalizePosts_single (g : Gelbooru) (pm : XMap) (img : GelbooruImage)
    (h : GelbooruImage.fromPayload g pm = .ok img) :
    normalizePosts g (.m pm) = .ok [img] := by
  rw [normalizePosts]
  simp only [asXMap, bind_ok_eq, h]
  intro items h'
  exact XVal.noConfusion h' 

theorem tagListBody_no_outer (g : Gelbooru) (payload : XMap)
    (h : XMap.hasKey payload "tags" = false) :
    tagListBody g (.xml payload) = .ok (.tags []) := by
  rw [tagListBody]
  simp [xmltodictParse, bind_ok_eq, bind_error_eq, h]

theorem tagListBody_inner_missing (g : Gelbooru) (payload : XMap) (tm : XMap)
    (h1 : XMap.get payload "tags" = some (.m tm))
    (h2 : XMap.get tm "tag" = none) :
    tagListBody g (.xml payload) = .error (.keyError "tag") := by
  rw [tagListBody]
  simp [xmltodictParse, bind_ok_eq, bind_error_eq, XMap.hasKey, XMap.getItem, XVal.getItem, h1, h2]

theorem tagListBody_single (g : Gelbooru) (payload : XMap) (tm tagm : XMap)
    (tg : GelbooruTag)
    (h1 : XMap.get payload "tags" = some (.m tm))
    (h2 : XMap.get tm "tag" = some (.m tagm))
    (h3 : GelbooruTag.fromPayload g tagm = .ok tg) :
    tagListBody g (.xml payload) = .ok (.singleTag tg) := by
  rw [tagListBody]
  simp [xmltodictParse, bind_ok_eq, bind_error_eq, XMap.hasKey, XMap.getItem, XVal.getItem, asXMap,
    h1, h2, h3]

theorem commentsBody_no_outer (g : Gelbooru) (postOpt : Option GelbooruImage)
    (payload : XMap) (h : XMap.get payload "comments" = none) :
    commentsBody g postOpt (.xml payload) = .error (.keyError "comments") := by
  rw [commentsBody]
  simp [xmltodictParse, bind_ok_eq, bind_error_eq, XMap.getItem, h]

theorem commentsBody_no_inner (g : Gelbooru) (postOpt : Option GelbooruImage)
    (payload : XMap) (cv : XVal)
    (h1 : XMap.get payload "comments" = some cv)
    (h2 : pyIn "comment" cv = .ok false) :
    commentsBody g postOpt (.xml payload) = .ok [] := by
  rw [commentsBody]
  simp [xmltodictParse, bind_ok_eq, bind_error_eq, XMap.getItem, h1, h2]

theorem commentsBody_single (g : Gelbooru) (postOpt : Option GelbooruImage)
    (payload : XMap) (cm comm : XMap) (c : GelbooruComment)
    (h1 : XMap.get payload "comments" = some (.m cm))
    (h2 : XMap.get cm "comment" = some (.m comm))
    (h3 : GelbooruComment.fromPayload g comm postOpt = .ok c) :
    commentsBody g postOpt (.xml payload) = .ok [c] := by
  rw [commentsBody]
  simp [xmltodictParse, bind_ok_eq, bind_error_eq, XMap.hasKey, XMap.getItem, XVal.getItem, pyIn, asXMap,
    h1, h2, h3]

theorem getPostBody_no_outer (g : Gelbooru) (post_id : String) (payload : XMap)
    (h : XMap.hasKey payload "posts" = false) :
    getPostBody g post_id (.xml payload)
      = .error (.notFound ("Could not find a post with the ID " ++ post_id)) := by
  rw [getPostBody]
  simp [xmltodictParse, bind_ok_eq, bind_error_eq, h]

theorem getPostBody_inner_missing (g : Gelbooru) (post_id : String)
    (payload : XMap) (pm : XMap)
    (h1 : XMap.get payload "posts" = some (.m pm))
    (h2 : XMap.get pm "post" = none) :
    getPostBody g post_id (.xml payload) = .error (.keyError "post") := by
  rw [getPostBody]
  simp [xmltodictParse, bind_ok_eq, bind_error_eq, XMap.hasKey, XMap.getItem, XVal.getItem, h1, h2]

theorem randomCount_xml (payload : XMap) (pv cv : XVal)
    (h1 : XMap.get payload "posts" = some pv)
    (h2 : pv.getItem "@count" = .ok cv) :
    randomCount (.xml payload) = pyInt cv := by
  rw [randomCount]
  simp [parseOrMalformed_xml, bind_ok_eq, bind_error_eq, XMap.getItem, h1, h2]

/-- C8: an unparseable body makes `search_posts` and `random_post` raise the
malformed-response error, and the shared parsing step raises that error
exactly when the body is unparseable. -/
theorem malformed_response_correct (g : Gelbooru) (tags exclude_tags : List String)
    (limit page : Int) (raw : String) (rest : List HttpResp) (log : List Endpoint) :
    g.search_posts tags exclude_tags limit page ⟨⟨200, .malformed raw⟩ :: rest, log⟩
      = .error (.gelbooru malformedMsg)
    ∧ g.random_post tags exclude_tags ⟨⟨200, .malformed raw⟩ :: rest, log⟩
      = .error (.gelbooru malformedMsg)
    ∧ (∀ b : Body, parseOrMalformed b = .error (.gelbooru malformedMsg)
        ↔ ∃ raw' : String, b = .malformed raw') := by
  refine ⟨?_, ?_, ?_⟩
  · rw [search_posts_run]
    rfl
  · rw [Gelbooru.random_post, request_ok _ _ _ _ _ (Or.inl rfl)]
    rfl
  · intro b
    constructor
    · intro h
      cases b with
      | xml p => exact absurd h (by rw [parseOrMalformed_xml]; intro hx; exact Except.noConfusion hx)
      | malformed raw' => exact ⟨raw', rfl⟩
    · rintro ⟨raw', rfl⟩
      rfl

/-- C1: when the inner key maps to a single mapping rather than a sequence,
each normalizing operation yields exactly one record, built from that whole
mapping (`search_posts` a one-element list, unwrapped when `limit == 1`;
`tag_list` the bare tag; `get_comments` a one-element list) — the mapping's
own entries are never iterated as records. -/
theorem single_mapping_one_record (g : Gelbooru)
    (tags exclude_tags : List String) (page : Int)
    (name : NameArg) (name_pattern : Option String)
    (tlimit : Int) (sort_by sort_order : String) (post : PostArg)
    (p1 pm postm p2 tm tagm p3 cm comm : XMap)
    (img : GelbooruImage) (tg : GelbooruTag) (c : GelbooruComment)
    (rest : List HttpResp) (log : List Endpoint)
    (h1 : XMap.get p1 "posts" = some (.m pm))
    (h2 : XMap.get pm "post" = some (.m postm))
    (h3 : GelbooruImage.fromPayload g postm = .ok img)
    (h4 : XMap.get p2 "tags" = some (.m tm))
    (h5 : XMap.get tm "tag" = some (.m tagm))
    (h6 : GelbooruTag.fromPayload g tagm = .ok tg)
    (h7 : XMap.get p3 "comments" = some (.m cm))
    (h8 : XMap.get cm "comment" = some (.m comm))
    (h9 : GelbooruComment.fromPayload g comm post.asImage = .ok c) :
    (∀ limit : Int, limit ≠ 1 →
      g.search_posts tags exclude_tags limit page ⟨⟨200, .xml p1⟩ :: rest, log⟩
        = .ok (.images [img],
            ⟨rest, log ++ [searchEndpoint g tags exclude_tags limit page]⟩))
    ∧ g.search_posts tags exclude_tags 1 page ⟨⟨200, .xml p1⟩ :: rest, log⟩
        = .ok (.single img,
            ⟨rest, log ++ [searchEndpoint g tags exclude_tags 1 page]⟩)
    ∧ g.tag_list name name_pattern tlimit sort_by sort_order
        ⟨⟨200, .xml p2⟩ :: rest, log⟩
        = .ok (.singleTag tg,
            ⟨rest, log ++ [tagListEndpoint g name name_pattern tlimit sort_by sort_order]⟩)
    ∧ g.get_comments post ⟨⟨200, .xml p3⟩ :: rest, log⟩
        = .ok ([c],
            ⟨rest, log ++ [(g._endpoint "comment").set "post_id" (toString post.pyIntOf)]⟩) := by
  have hin : pyIn "post" (XVal.m pm) = .ok true := by
    simp [pyIn, XMap.hasKey, h2]
  have hgi : (XVal.m pm).getItem "post" = .ok (.m postm) := by
    simp [XVal.getItem, XMap.getItem, h2]
  have hnorm := normalizePosts_single g postm img h3
  refine ⟨?_, ?_, ?_, ?_⟩
  · intro limit hlimit
    rw [search_posts_run,
      postsBody_results_many g limit p1 (.m pm) (.m postm) [img] hlimit h1 hin hgi hnorm]
    rfl
  · rw [search_posts_run,
      postsBody_results_one g p1 (.m pm) (.m postm) img [] h1 hin hgi hnorm]
    rfl
  · rw [tag_list_run, tagListBody_single g p2 tm tagm tg h4 h5 h6]
    rfl
  · rw [get_comments_run, commentsBody_single g post.asImage p3 cm comm c h7 h8 h9]
    rfl

/-- C5: on a successful response whose normalized record list is non-empty,
`search_posts` with `limit == 1` returns the bare first image, and with any
other limit (in particular the 100 default or any limit greater than one)
returns the image sequence. -/
theorem search_posts_limit_unwrap (g : Gelbooru)
    (tags exclude_tags : List String) (page : Int) (payload : XMap)
    (pv postVal : XVal) (i : GelbooruImage) (tl : List GelbooruImage)
    (rest : List HttpResp) (log : List Endpoint)
    (h1 : XMap.get payload "posts" = some pv)
    (h2 : pyIn "post" pv = .ok true)
    (h3 : pv.getItem "post" = .ok postVal)
    (h4 : normalizePosts g postVal = .ok (i :: tl)) :
    g.search_posts tags exclude_tags 1 page ⟨⟨200, .xml payload⟩ :: rest, log⟩
      = .ok (.single i, ⟨rest, log ++ [searchEndpoint g tags exclude_tags 1 page]⟩)
    ∧ (∀ limit : Int, limit ≠ 1 →
        g.search_posts tags exclude_tags limit page ⟨⟨200, .xml payload⟩ :: rest, log⟩
          = .ok (.images (i :: tl),
              ⟨rest, log ++ [searchEndpoint g tags exclude_tags limit page]⟩)) := by
  constructor
  · rw [search_posts_run, postsBody_results_one g payload pv postVal i tl h1 h2 h3 h4]
    rfl
  · intro limit hlimit
    rw [search_posts_run,
      postsBody_results_many g limit payload pv postVal (i :: tl) hlimit h1 h2 h3 h4]
    rfl

/-- C10: with `limit == 1`, a parsed response lacking the outer `posts` key
or the inner `post` key still yields the empty sequence — the no-results
check precedes the limit-based unwrapping, so no bare image and no `None`
is produced. -/
theorem search_posts_limit1_no_results (g : Gelbooru)
    (tags exclude_tags : List String) (page : Int) (payload : XMap)
    (rest : List HttpResp) (log : List Endpoint)
    (h : XMap.hasKey payload "posts" = false
      ∨ ∃ pm : XMap, XMap.get payload "posts" = some (.m pm)
          ∧ XMap.hasKey pm "post" = false) :
    g.search_posts tags exclude_tags 1 page ⟨⟨200, .xml payload⟩ :: rest, log⟩
      = .ok (.images [], ⟨rest, log ++ [searchEndpoint g tags exclude_tags 1 page]⟩) := by
  rw [search_posts_run]
  rcases h with h | ⟨pm, h1, h2⟩
  · rw [postsBody_no_outer g 1 payload h]
    rfl
  · rw [postsBody_no_inner g 1 payload (.m pm) h1 (by simp [pyIn, h2])]
    rfl

/-- C1 witness: the single-mapping responses normalized at concrete inputs,
via `single_mapping_one_record`. -/
theorem single_mapping_one_record_witness :
    Gelbooru.tag_list g0 .noName none 100 "count" "DESC"
        ⟨[⟨200, .xml [("tags", .m [("tag", .m tagPayload0)])]⟩], []⟩
      = .ok (.singleTag tag0,
          ⟨[], [tagListEndpoint g0 .noName none 100 "count" "DESC"]⟩)
    ∧ Gelbooru.get_comments g0 (.byId 42)
        ⟨[⟨200, .xml [("comments", .m [("comment", .m commentPayload0)])]⟩], []⟩
      = .ok ([comment0],
          ⟨[], [(g0._endpoint "comment").set "post_id" "42"]⟩) := by
  have h := single_mapping_one_record g0 [] [] 0 .noName none 100 "count" "DESC"
    (.byId 42)
    [("posts", .m [("post", .m postPayload0)])] [("post", .m postPayload0)]
    postPayload0
    [("tags", .m [("tag", .m tagPayload0)])] [("tag", .m tagPayload0)] tagPayload0
    [("comments", .m [("comment", .m commentPayload0)])]
    [("comment", .m commentPayload0)] commentPayload0
    img0 tag0 comment0 [] [] rfl rfl rfl rfl rfl rfl rfl rfl rfl
  exact ⟨h.2.2.1, h.2.2.2⟩

/-- C5 witness: `limit=1` unwraps to the first image and `limit=100` keeps
the sequence, via `search_posts_limit_unwrap`. -/
theorem search_posts_limit_unwrap_witness :
    Gelbooru.search_posts g0 [] [] 1 0
        ⟨[⟨200, .xml [("posts", .m [("post", .l [.m postPayload0, .m postPayload0])])]⟩], []⟩
      = .ok (.single img0, ⟨[], [searchEndpoint g0 [] [] 1 0]⟩)
    ∧ Gelbooru.search_posts g0 [] [] 100 0
        ⟨[⟨200, .xml [("posts", .m [("post", .l [.m postPayload0, .m postPayload0])])]⟩], []⟩
      = .ok (.images [img0, img0], ⟨[], [searchEndpoint g0 [] [] 100 0]⟩) := by
  have h := search_posts_limit_unwrap g0 [] [] 0
    [("posts", .m [("post", .l [.m postPayload0, .m postPayload0])])]
    (.m [("post", .l [.m postPayload0, .m postPayload0])])
    (.l [.m postPayload0, .m postPayload0]) img0 [img0] [] []
    rfl rfl rfl rfl
  exact ⟨h.1, h.2 100 (by decide)⟩

/-- C10 witness: a keyless response with `limit=1` yields the empty sequence,
via `search_posts_limit1_no_results`. -/
theorem search_posts_limit1_no_results_witness :
    Gelbooru.search_posts g0 [] [] 1 0 ⟨[⟨200, .xml [("foo", XVal.null)]⟩], []⟩
      = .ok (.images [], ⟨[], [searchEndpoint g0 [] [] 1 0]⟩)
    ∧ Gelbooru.search_posts g0 [] [] 1 0
        ⟨[⟨200, .xml [("posts", .m [("@count", .s "0")])]⟩], []⟩
      = .ok (.images [], ⟨[], [searchEndpoint g0 [] [] 1 0]⟩) := by
  constructor
  · exact search_posts_limit1_no_results g0 [] [] 0 [("foo", XVal.null)] [] []
      (Or.inl rfl)
  · exact search_posts_limit1_no_results g0 [] [] 0
      [("posts", .m [("@count", .s "0")])] [] []
      (Or.inr ⟨[("@count", .s "0")], rfl, rfl⟩)

/-- C2 counterexample: on a parsed response without the outer `comments`
key, `get_comments` does not return an empty sequence — the direct subscript
`payload['comments']` raises a `KeyError`, which escapes. -/
theorem get_comments_missing_outer_raises :
    Gelbooru.get_comments g0 (.byId 1)
        ⟨[⟨200, .xml [("posts", XVal.null)]⟩], []⟩
      = .error (.keyError "comments") := by
  rw [get_comments_run,
    commentsBody_no_outer g0 (PostArg.byId 1).asImage [("posts", XVal.null)] rfl]
  rfl

/-- C2 (amended): on a parsed response lacking the expected outer key,
`search_posts` and `tag_list` return an empty sequence and `get_post` raises
`NotFound`; `get_comments`, however, raises a `KeyError` on the missing
`comments` key instead of returning an empty sequence. -/
theorem missing_outer_key_behavior (g : Gelbooru) (post_id : String)
    (tags exclude_tags : List String) (limit page tlimit : Int)
    (name : NameArg) (name_pattern : Option String) (sort_by sort_order : String)
    (post : PostArg) (p1 p2 p3 p4 : XMap)
    (rest : List HttpResp) (log : List Endpoint)
    (h1 : XMap.hasKey p1 "posts" = false)
    (h2 : XMap.hasKey p2 "tags" = false)
    (h3 : XMap.get p3 "comments" = none)
    (h4 : XMap.hasKey p4 "posts" = false) :
    g.search_posts tags exclude_tags limit page ⟨⟨200, .xml p1⟩ :: rest, log⟩
      = .ok (.images [],
          ⟨rest, log ++ [searchEndpoint g tags exclude_tags limit page]⟩)
    ∧ g.tag_list name name_pattern tlimit sort_by sort_order
        ⟨⟨200, .xml p2⟩ :: rest, log⟩
      = .ok (.tags [],
          ⟨rest, log ++ [tagListEndpoint g name name_pattern tlimit sort_by sort_order]⟩)
    ∧ g.get_post post_id ⟨⟨200, .xml p4⟩ :: rest, log⟩
      = .error (.notFound ("Could not find a post with the ID " ++ post_id))
    ∧ g.get_comments post ⟨⟨200, .xml p3⟩ :: rest, log⟩
      = .error (.keyError "comments") := by
  refine ⟨?_, ?_, ?_, ?_⟩
  · rw [search_posts_run, postsBody_no_outer g limit p1 h1]
    rfl
  · rw [tag_list_run, tagListBody_no_outer g p2 h2]
    rfl
  · rw [get_post_run, getPostBody_no_outer g post_id p4 h4]
    rfl
  · rw [get_comments_run, commentsBody_no_outer g post.asImage p3 h3]
    rfl

/-- C2 witness: `missing_outer_key_behavior` applied at a concrete keyless
response. -/
theorem missing_outer_key_behavior_witness :
    Gelbooru.search_posts g0 [] [] 100 0
        ⟨[⟨200, .xml [("bogus", XVal.null)]⟩], []⟩
      = .ok (.images [], ⟨[], [searchEndpoint g0 [] [] 100 0]⟩)
    ∧ Gelbooru.get_post g0 "9" ⟨[⟨200, .xml [("bogus", XVal.null)]⟩], []⟩
      = .error (.notFound "Could not find a post with the ID 9") :=
  ⟨(missing_outer_key_behavior g0 "9" [] [] 100 0 100 .noName none "count" "DESC"
      (.byId 9) [("bogus", XVal.null)] [("bogus", XVal.null)] [("bogus", XVal.null)]
      [("bogus", XVal.null)] [] [] rfl rfl rfl rfl).1,
   (missing_outer_key_behavior g0 "9" [] [] 100 0 100 .noName none "count" "DESC"
      (.byId 9) [("bogus", XVal.null)] [("bogus", XVal.null)] [("bogus", XVal.null)]
      [("bogus", XVal.null)] [] [] rfl rfl rfl rfl).2.2.1⟩

/-- C3 counterexample: on a parsed response whose outer `tags` mapping lacks
the inner `tag` key, `tag_list` does not return an empty sequence — the
subscript `payload['tags']['tag']` raises a `KeyError`, which escapes. -/
theorem tag_list_missing_inner_raises :
    Gelbooru.tag_list g0 .noName none 100 "count" "DESC"
        ⟨[⟨200, .xml [("tags", .m [("@count", .s "0")])]⟩], []⟩
      = .error (.keyError "tag") := by
  rw [tag_list_run,
    tagListBody_inner_missing g0 [("tags", .m [("@count", .s "0")])]
      [("@count", .s "0")] rfl rfl]
  rfl

/-- C3 (amended): on a parsed response whose outer key is present but whose
inner key is absent, `search_posts` and `get_comments` return an empty
sequence; `tag_list` and `get_post`, however, raise a `KeyError` on the
missing inner key instead of treating the response as no-results. -/
theorem missing_inner_key_behavior (g : Gelbooru) (post_id : String)
    (tags exclude_tags : List String) (limit page tlimit : Int)
    (name : NameArg) (name_pattern : Option String) (sort_by sort_order : String)
    (post : PostArg) (p1 p2 p3 p4 : XMap) (pv1 cv : XVal) (tm pm4 : XMap)
    (rest : List HttpResp) (log : List Endpoint)
    (h1 : XMap.get p1 "posts" = some pv1)
    (h2 : pyIn "post" pv1 = .ok false)
    (h3 : XMap.get p2 "tags" = some (.m tm))
    (h4 : XMap.get tm "tag" = none)
    (h5 : XMap.get p3 "comments" = some cv)
    (h6 : pyIn "comment" cv = .ok false)
    (h7 : XMap.get p4 "posts" = some (.m pm4))
    (h8 : XMap.get pm4 "post" = none) :
    g.search_posts tags exclude_tags limit page ⟨⟨200, .xml p1⟩ :: rest, log⟩
      = .ok (.images [],
          ⟨rest, log ++ [searchEndpoint g tags exclude_tags limit page]⟩)
    ∧ g.get_comments post ⟨⟨200, .xml p3⟩ :: rest, log⟩
      = .ok ([], ⟨rest, log ++ [(g._endpoint "comment").set "post_id" (toString post.pyIntOf)]⟩)
    ∧ g.tag_list name name_pattern tlimit sort_by sort_order
        ⟨⟨200, .xml p2⟩ :: rest, log⟩
      = .error (.keyError "tag")
    ∧ g.get_post post_id ⟨⟨200, .xml p4⟩ :: rest, log⟩
      = .error (.keyError "post") := by
  refine ⟨?_, ?_, ?_, ?_⟩
  · rw [search_posts_run, postsBody_no_inner g limit p1 pv1 h1 h2]
    rfl
  · rw [get_comments_run, commentsBody_no_inner g post.asImage p3 cv h5 h6]
    rfl
  · rw [tag_list_run, tagListBody_inner_missing g p2 tm h3 h4]
    rfl
  · rw [get_post_run, getPostBody_inner_missing g post_id p4 pm4 h7 h8]
    rfl

/-- C3 witness: `missing_inner_key_behavior` applied at concrete responses
whose outer mapping carries only a `@count` attribute. -/
theorem missing_inner_key_behavior_witness :
    Gelbooru.search_posts g0 [] [] 100 0
        ⟨[⟨200, .xml [("posts", .m [("@count", .s "0")])]⟩], []⟩
      = .ok (.images [], ⟨[], [searchEndpoint g0 [] [] 100 0]⟩)
    ∧ Gelbooru.get_comments g0 (.byId 9)
        ⟨[⟨200, .xml [("comments", .m [("@count", .s "0")])]⟩], []⟩
      = .ok ([], ⟨[], [(g0._endpoint "comment").set "post_id" "9"]⟩) :=
  ⟨(missing_inner_key_behavior g0 "9" [] [] 100 0 100 .noName none "count" "DESC"
      (.byId 9) [("posts", .m [("@count", .s "0")])] [("tags", .m [("@count", .s "0")])]
      [("comments", .m [("@count", .s "0")])] [("posts", .m [("@count", .s "0")])]
      (.m [("@count", .s "0")]) (.m [("@count", .s "0")])
      [("@count", .s "0")] [("@count", .s "0")] [] []
      rfl rfl rfl rfl rfl rfl rfl rfl).1,
   (missing_inner_key_behavior g0 "9" [] [] 100 0 100 .noName none "count" "DESC"
      (.byId 9) [("posts", .m [("@count", .s "0")])] [("tags", .m [("@count", .s "0")])]
      [("comments", .m [("@count", .s "0")])] [("posts", .m [("@count", .s "0")])]
      (.m [("@count", .s "0")]) (.m [("@count", .s "0")])
      [("@count", .s "0")] [("@count", .s "0")] [] []
      rfl rfl rfl rfl rfl rfl rfl rfl).2.1⟩

theorem search_posts_ok_log (g : Gelbooru) (tags exclude_tags : List String)
    (limit page : Int) (st : NetState) (r : PostsResult) (st' : NetState)
    (h : g.search_posts tags exclude_tags limit page st = .ok (r, st')) :
    st'.log.length = st.log.length + 1 := by
  rcases st with ⟨pending, lg⟩
  rcases pending with _ | ⟨resp, rest⟩
  · rw [Gelbooru.search_posts] at h
    simp [Gelbooru._request] at h
  · rcases resp with ⟨status, b⟩
    by_cases hs : status = 200 ∨ status = 201
    · rw [Gelbooru.search_posts, request_ok _ _ _ _ _ hs] at h
      dsimp only at h
      cases hb : postsBody g limit b with
      | error e => rw [hb] at h; simp at h
      | ok r' =>
        rw [hb] at h
        dsimp only at h
        cases h
        simp
    · rw [Gelbooru.search_posts,
        request_fail _ _ _ _ _ (by push_neg at hs; exact hs)] at h
      exact Except.noConfusion h

/-- C6: when the count probe parses with `@count == 0`, `random_post` returns
the none result after exactly one request (the probe); when the count is
positive, it draws an offset `randint(0, min(count, 20000))` lying in that
range, delegates to `search_posts` with `limit=1` at that offset, and any
successful run has performed exactly two requests in total. -/
theorem random_post_spec (g : Gelbooru) (tags exclude_tags : List String)
    (payload : XMap) (pv cv : XVal) (count : Int)
    (rest : List HttpResp) (log : List Endpoint)
    (h1 : XMap.get payload "posts" = some pv)
    (h2 : pv.getItem "@count" = .ok cv)
    (h3 : pyInt cv = .ok count)
    (hrand : ∀ a b : Int, a ≤ b → a ≤ g.rand a b ∧ g.rand a b ≤ b) :
    (count = 0 →
      g.random_post tags exclude_tags ⟨⟨200, .xml payload⟩ :: rest, log⟩
        = .ok (.noPost, ⟨rest, log ++ [randomEndpoint g tags exclude_tags]⟩))
    ∧ (0 < count →
        (0 ≤ g.rand 0 (min count 20000) ∧ g.rand 0 (min count 20000) ≤ min count 20000)
        ∧ g.random_post tags exclude_tags ⟨⟨200, .xml payload⟩ :: rest, log⟩
            = (g.search_posts (Gelbooru._format_tags tags exclude_tags) exclude_tags 1
                (g.rand 0 (min count 20000))
                ⟨rest, log ++ [randomEndpoint g tags exclude_tags]⟩).map
                (fun p => (.found p.1, p.2))
        ∧ (∀ res st', g.random_post tags exclude_tags ⟨⟨200, .xml payload⟩ :: rest, log⟩
              = .ok (res, st') → st'.log.length = log.length + 2)) := by
  have hcount : randomCount (.xml payload) = .ok count := by
    rw [randomCount_xml payload pv cv h1 h2, h3]
  constructor
  · intro h0
    rw [Gelbooru.random_post, request_ok _ _ _ _ _ (Or.inl rfl)]
    dsimp only
    rw [hcount]
    simp [h0]
  · intro hpos
    have h0 : ¬(count = 0) := by omega
    have hdeleg : g.random_post tags exclude_tags ⟨⟨200, .xml payload⟩ :: rest, log⟩
        = (g.search_posts (Gelbooru._format_tags tags exclude_tags) exclude_tags 1
            (g.rand 0 (min count 20000))
            ⟨rest, log ++ [randomEndpoint g tags exclude_tags]⟩).map
            (fun p => (.found p.1, p.2)) := by
      rw [Gelbooru.random_post, request_ok _ _ _ _ _ (Or.inl rfl)]
      dsimp only
      rw [hcount]
      simp only [h0, if_false]
      cases g.search_posts (Gelbooru._format_tags tags exclude_tags) exclude_tags 1
          (g.rand 0 (min count 20000))
          ⟨rest, log ++ [randomEndpoint g tags exclude_tags]⟩ with
      | error e => rfl
      | ok p => rfl
    refine ⟨hrand 0 (min count 20000) (by omega), hdeleg, ?_⟩
    intro res st' hok
    rw [hdeleg] at hok
    cases hs : g.search_posts (Gelbooru._format_tags tags exclude_tags) exclude_tags 1
        (g.rand 0 (min count 20000))
        ⟨rest, log ++ [randomEndpoint g tags exclude_tags]⟩ with
    | error e => rw [hs] at hok; exact Except.noConfusion hok
    | ok p =>
      rw [hs] at hok
      have hlen := search_posts_ok_log g (Gelbooru._format_tags tags exclude_tags)
        exclude_tags 1 (g.rand 0 (min count 20000)) _ p.1 p.2
        (by rw [hs])
      have hst : st' = p.2 := by
        have := Except.ok.inj hok
        exact (congrArg Prod.snd this).symm
      rw [hst, hlen]
      simp

/-- C6 witness: a zero count returns none after the single probe request; a
count of 5 delegates to `search_posts` at the drawn offset and completes
with exactly two logged requests. -/
theorem random_post_spec_witness :
    Gelbooru.random_post g0 [] []
        ⟨[⟨200, .xml [("posts", .m [("@count", .s "0")])]⟩], []⟩
      = .ok (.noPost, ⟨[], [randomEndpoint g0 [] []]⟩)
    ∧ Gelbooru.random_post g0 [] []
        ⟨[⟨200, .xml [("posts", .m [("@count", .s "5")])]⟩,
          ⟨200, .xml [("posts", .m [("post", .m postPayload0)])]⟩], []⟩
      = .ok (.found (.single img0),
          ⟨[], [randomEndpoint g0 [] [], searchEndpoint g0 [] [] 1 0]⟩) := by
  constructor
  · exact (random_post_spec g0 [] [] [("posts", .m [("@count", .s "0")])]
      (.m [("@count", .s "0")]) (.s "0") 0 [] [] rfl rfl rfl
      (fun a b h => ⟨le_refl a, h⟩)).1 rfl
  · have h := (random_post_spec g0 [] [] [("posts", .m [("@count", .s "5")])]
      (.m [("@count", .s "5")]) (.s "5") 5
      [⟨200, .xml [("posts", .m [("post", .m postPayload0)])]⟩] [] rfl rfl rfl
      (fun a b hb => ⟨le_refl a, hb⟩)).2 (by decide)
    rw [h.2.1]
    rfl

theorem image_withComments_data (img : GelbooruImage) (cs : List GelbooruComment) :
    (img.withComments cs).data = img.data := by
  cases img
  rfl

theorem image_withComments_comments (img : GelbooruImage) (cs : List GelbooruComment) :
    (img.withComments cs).comments = cs := by
  cases img
  rfl

theorem comment_withPost_post (c : GelbooruComment) (p : Option GelbooruImage) :
    (c.withPost p).post = p := by
  cases c
  rfl

theorem get_post_ok_log (g : Gelbooru) (post_id : String)
    (st : NetState) (img : GelbooruImage) (st' : NetState)
    (h : g.get_post post_id st = .ok (img, st')) :
    st'.log.length = st.log.length + 1 := by
  rcases st with ⟨pending, lg⟩
  rcases pending with _ | ⟨resp, rest⟩
  · rw [Gelbooru.get_post] at h
    simp [Gelbooru._request] at h
  · rcases resp with ⟨status, b⟩
    by_cases hs : status = 200 ∨ status = 201
    · rw [Gelbooru.get_post, request_ok _ _ _ _ _ hs] at h
      dsimp only at h
      cases hb : getPostBody g post_id b with
      | error e => rw [hb] at h; simp at h
      | ok r' =>
        rw [hb] at h
        dsimp only at h
        cases h
        simp
    · rw [Gelbooru.get_post,
        request_fail _ _ _ _ _ (by push_neg at hs; exact hs)] at h
      exact Except.noConfusion h

/-- C7 counterexample: an image whose `has_comments` flag is truthy but whose
first comment fetch returned the empty list fetches again on the next call —
the empty cached sequence does not suppress the second network request (the
log grows from one to two requests). -/
theorem image_comment_cache_refetch :
    GelbooruImage.get_comments img0
        ⟨[⟨200, .xml [("comments", .m [("@count", .s "0")])]⟩,
          ⟨200, .xml [("comments", .m [("@count", .s "0")])]⟩], []⟩
      = .ok (([], img0),
          ⟨[⟨200, .xml [("comments", .m [("@count", .s "0")])]⟩],
           [(g0._endpoint "comment").set "post_id" (toString (42 : Int))]⟩)
    ∧ GelbooruImage.get_comments img0
        ⟨[⟨200, .xml [("comments", .m [("@count", .s "0")])]⟩],
         [(g0._endpoint "comment").set "post_id" (toString (42 : Int))]⟩
      = .ok (([], img0),
          ⟨[], [(g0._endpoint "comment").set "post_id" (toString (42 : Int)),
                (g0._endpoint "comment").set "post_id" (toString (42 : Int))]⟩) := by
  constructor <;> rfl

/-- C7 (amended): a comment's image backreference, once pre-set or resolved
by a single fetch, is never re-fetched; an image's comment cache suppresses
further fetches only when the cached sequence is non-empty — a first call
whose result is non-empty makes every later call fetch-free, but (per the
counterexample) an empty fetched result is requested again. -/
theorem lazy_cache_behavior :
    (∀ (c : GelbooruComment) (p : GelbooruImage) (st : NetState),
      c.post = some p → c.get_post st = .ok ((p, c), st))
    ∧ (∀ (c : GelbooruComment) (st : NetState) (p : GelbooruImage)
        (c' : GelbooruComment) (st' : NetState),
        c.post = none → c.get_post st = .ok ((p, c'), st') →
          c'.post = some p
          ∧ (∀ st2 : NetState, c'.get_post st2 = .ok ((p, c'), st2))
          ∧ st'.log.length = st.log.length + 1)
    ∧ (∀ (img : GelbooruImage) (st : NetState),
        pyTruthy img.data.has_comments = true → img.comments ≠ [] →
          img.get_comments st = .ok ((img.comments, img), st))
    ∧ (∀ (img : GelbooruImage) (st : NetState) (cs : List GelbooruComment)
        (img' : GelbooruImage) (st' : NetState),
        img.get_comments st = .ok ((cs, img'), st') → cs ≠ [] →
          ∀ st2 : NetState, img'.get_comments st2 = .ok ((cs, img'), st2)) := by
  have hcached : ∀ (img : GelbooruImage) (st : NetState),
      pyTruthy img.data.has_comments = true → img.comments ≠ [] →
        img.get_comments st = .ok ((img.comments, img), st) := by
    intro img st h1 h2
    rw [GelbooruImage.get_comments, if_neg (by simp [h1]),
      if_pos (by simpa [List.isEmpty_iff] using h2)]
  refine ⟨?_, ?_, hcached, ?_⟩
  · intro c p st hp
    rw [GelbooruComment.get_post, hp]
  · intro c st p c' st' hnone h
    rw [GelbooruComment.get_post, hnone] at h
    cases hg : Gelbooru.get_post c.data.gelbooru (pyStrOpt c.data.post_id) st with
    | error e => rw [hg] at h; exact Except.noConfusion h
    | ok q =>
      rw [hg] at h
      rcases q with ⟨q1, q2⟩
      dsimp only at h
      cases h
      refine ⟨comment_withPost_post c (some p), ?_, ?_⟩
      · intro st2
        rw [GelbooruComment.get_post, comment_withPost_post c (some p)]
      · exact get_post_ok_log c.data.gelbooru (pyStrOpt c.data.post_id) st p st'
          (by rw [hg])
  · intro img st cs img' st' h hcs st2
    rw [GelbooruImage.get_comments] at h
    by_cases h1 : pyTruthy img.data.has_comments = true
    · rw [if_neg (by simp [h1])] at h
      by_cases h2 : img.comments.isEmpty = true
      · rw [if_neg (by simp [h2])] at h
        cases hg : Gelbooru.get_comments img.data.gelbooru (.byImage img) st with
        | error e => rw [hg] at h; exact Except.noConfusion h
        | ok q =>
          rw [hg] at h
          rcases q with ⟨q1, q2⟩
          dsimp only at h
          cases h
          have := hcached (img.withComments cs)
          rw [image_withComments_data, image_withComments_comments] at this
          exact this st2 h1 hcs
      · rw [if_pos (by simpa using h2)] at h
        cases h
        exact hcached img st2 h1 hcs
    · rw [if_pos (by simpa using h1)] at h
      cases h
      exact absurd rfl hcs

/-- C7 witness: a pre-set backreference is returned without any request, and
a lazily resolved one is cached — the second retrieval is fetch-free. -/
theorem lazy_cache_behavior_witness :
    GelbooruComment.get_post (comment0.withPost (some img0)) ⟨[], []⟩
      = .ok ((img0, comment0.withPost (some img0)), ⟨[], []⟩)
    ∧ GelbooruImage.get_comments (img0.withComments [comment0]) ⟨[], []⟩
      = .ok (([comment0], img0.withComments [comment0]), ⟨[], []⟩) := by
  constructor
  · exact lazy_cache_behavior.1 (comment0.withPost (some img0)) img0 ⟨[], []⟩ rfl
  · have h := lazy_cache_behavior.2.2.1 (img0.withComments [comment0]) ⟨[], []⟩
      rfl (by intro hx; exact List.noConfusion hx)
    simpa [image_withComments_comments] using h

end PyGelbooru
